import Mathlib

/-!
Shallow embedding of `app.py` (wrl-content-extracter): a Streamlit page that
fetches a web page, extracts visible text and image URLs, and sends them to
the Gemini generateContent endpoint for a summary.

The two core functions are embedded faithfully:

* `extract_content_from_url` — fetches a URL (the network is an explicit
  oracle `fetch : String → FetchOutcome`; a `requests` `Response` is modelled
  by its final status code, its final URL after redirects, and the DOM that
  `BeautifulSoup(response.content, "html.parser")` produces from its body),
  removes `script`/`style` elements, joins the stripped text nodes with
  single spaces, and resolves each non-empty `img src` with
  `requests.compat.urljoin` (= `urllib.parse.urljoin`, modelled below for
  URL references without query/fragment components, which the program never
  produces from `img src` resolution in the claims under study).

* `call_gemini_api` — builds the prompt and JSON payload and performs one
  POST (again an oracle, `post : String → Json → PostOutcome`).  The embedded
  function additionally returns the list of HTTP requests it issued, so that
  "performs no network call" is expressible as that list being empty.

Python truthiness, `dict.get`, `in`, subscripting and `str.strip` are
modelled by the `py*` helpers; exceptions are modelled by `Except String`
with the exception's `str(e)` as the payload.
-/

/-! ### Python string helpers (on `List Char` so everything kernel-reduces) -/

/-- Python `str.strip` whitespace set: space, tab, newline, carriage return,
vertical tab, form feed. -/
def isPySpace (c : Char) : Bool :=
  c = ' ' || c = '\t' || c = '\n' || c = '\r' || c = '\x0b' || c = '\x0c'

/-- Python `str.strip()`. -/
def pyStrip (s : String) : String :=
  ⟨((s.data.dropWhile isPySpace).reverse.dropWhile isPySpace).reverse⟩

/-- Python `sep.join(items)`. -/
def joinWith (sep : String) : List String → String
  | [] => ""
  | [s] => s
  | s :: rest => s ++ sep ++ joinWith sep rest

/-- `needle` occurs contiguously in `hay` (Python `needle in hay` on str). -/
def listIsSubseg (needle : List Char) : List Char → Bool
  | [] => needle.isEmpty
  | c :: t => needle.isPrefixOf (c :: t) || listIsSubseg needle t

/-! ### `urllib.parse.urljoin` model

`requests.compat.urljoin` is `urllib.parse.urljoin`.  We model its behaviour
on URL references made of scheme, authority and path (no query/fragment):
RFC 3986 §5 reference resolution, which `urllib` implements for `http(s)`
(schemes in `uses_relative`/`uses_netloc`). -/

/-- Characters allowed in a URL scheme (`urllib` accepts letters, digits,
`+`, `-`, `.` before the first `:`). -/
def isSchemeChar (c : Char) : Bool :=
  c.isAlpha || c.isDigit || c = '+' || c = '-' || c = '.'

/-- Split a leading `scheme:` off a URL reference; the scheme is lowercased.
The first scheme character must be a letter. -/
def splitSchemeChars (s : List Char) : Option (List Char) × List Char :=
  match s.dropWhile isSchemeChar with
  | ':' :: tail =>
    match s.takeWhile isSchemeChar with
    | [] => (none, s)
    | c :: pre => if c.isAlpha then (some ((c :: pre).map Char.toLower), tail) else (none, s)
  | _ => (none, s)

/-- Split a leading `//authority` off what remains of a URL reference. -/
def splitNetlocChars : List Char → Option (List Char) × List Char
  | '/' :: '/' :: rest => (some (rest.takeWhile (· ≠ '/')), rest.dropWhile (· ≠ '/'))
  | s => (none, s)

/-- Split a list at every occurrence of `sep` (like Python `str.split`). -/
def splitChar (sep : Char) : List Char → List (List Char)
  | [] => [[]]
  | a :: rest =>
    match splitChar sep rest with
    | [] => [[]]
    | g :: gs => if a = sep then [] :: g :: gs else (a :: g) :: gs

/-- RFC 3986 §5.2.4 dot-segment removal, on a list of path segments.
`stack` holds the output segments in reverse.  A final `.` or `..` segment
leaves a trailing slash (empty final segment). -/
def processSegs (stack : List (List Char)) : List (List Char) → List (List Char)
  | [] => stack.reverse
  | [seg] =>
    if seg = ['.'] then ([] :: stack).reverse
    else if seg = ['.', '.'] then ([] :: stack.tail).reverse
    else (seg :: stack).reverse
  | seg :: rest =>
    if seg = ['.'] then processSegs stack rest
    else if seg = ['.', '.'] then processSegs stack.tail rest
    else processSegs (seg :: stack) rest

/-- RFC 3986 §5.2.4 `remove_dot_segments` on a path. -/
def removeDotSegments (p : List Char) : List Char :=
  match p with
  | '/' :: rest => '/' :: List.intercalate ['/'] (processSegs [] (splitChar '/' rest))
  | _ => List.intercalate ['/'] (processSegs [] (splitChar '/' p))

/-- RFC 3986 §5.3 path merge: base directory ++ relative path. -/
def mergePaths (bnetloc : Option (List Char)) (bpath rpath : List Char) : List Char :=
  if bnetloc.isSome && bpath.isEmpty then '/' :: rpath
  else ((bpath.reverse.dropWhile (· ≠ '/')).reverse) ++ rpath

/-- Reassemble scheme, authority and path (RFC 3986 §5.3; `urlunsplit`
inserts a `/` between an authority and a relative path). -/
def unsplitChars (scheme netloc : Option (List Char)) (path : List Char) : List Char :=
  let path' :=
    match netloc, path with
    | some _, [] => []
    | some _, '/' :: rest => '/' :: rest
    | some _, p => '/' :: p
    | none, p => p
  (match scheme with | some sc => sc ++ [':'] | none => []) ++
  (match netloc with | some n => '/' :: '/' :: n | none => []) ++ path'

/-- `urllib.parse.urljoin` on char lists (scheme/authority/path references). -/
def urljoinChars (base rel : List Char) : List Char :=
  if base.isEmpty then rel
  else if rel.isEmpty then base
  else
    match splitSchemeChars base, splitSchemeChars rel with
    | (bscheme, b1), (rscheme, r1) =>
      if rscheme.isSome && rscheme ≠ bscheme then rel
      else
        match splitNetlocChars b1, splitNetlocChars r1 with
        | (bnetloc, bpath), (rnetloc, rpath) =>
          if rnetloc.isSome then unsplitChars bscheme rnetloc rpath
          else if rpath.isEmpty then unsplitChars bscheme bnetloc bpath
          else if rpath.head? = some '/' then
            unsplitChars bscheme bnetloc (removeDotSegments rpath)
          else
            unsplitChars bscheme bnetloc
              (removeDotSegments (mergePaths bnetloc bpath rpath))

/-- `requests.compat.urljoin` (= `urllib.parse.urljoin`). -/
def urljoin (base rel : String) : String :=
  ⟨urljoinChars base.data rel.data⟩

/-! ### JSON values and Python dynamic operations

`response.json()` produces a Python value; we model it as `Json`
(numbers as integers — no claim involves floats).  Python operations that
can raise (`d[k]`, `l[i]`, `x in y`) return `Except String`, the error
being the exception's `str(e)`. -/

inductive Json where
  | null
  | bool : Bool → Json
  | num : Int → Json
  | str : String → Json
  | arr : List Json → Json
  | obj : List (String × Json) → Json

/-- Python truthiness of a JSON value. -/
def jsonTruthy : Json → Bool
  | .null => false
  | .bool b => b
  | .num n => n != 0
  | .str s => s != ""
  | .arr items => !items.isEmpty
  | .obj kvs => !kvs.isEmpty

/-- Python `key in data` for a JSON value: dict key membership, list element
membership, substring test on strings; `TypeError` otherwise. -/
def pyIn (key : String) : Json → Except String Bool
  | .obj kvs => .ok (kvs.lookup key).isSome
  | .arr items =>
    .ok (items.any fun j => match j with | .str s => s = key | _ => false)
  | .str s => .ok (listIsSubseg key.data s.data)
  | _ => .error "argument of type is not iterable"

/-- Python `data[key]` for a string key. -/
def pyIndexStr (j : Json) (key : String) : Except String Json :=
  match j with
  | .obj kvs =>
    match kvs.lookup key with
    | some v => .ok v
    | none => .error ("KeyError: " ++ key)
  | .arr _ => .error "list indices must be integers or slices, not str"
  | .str _ => .error "string indices must be integers"
  | _ => .error "object is not subscriptable"

/-- Structural positional lookup (Python `seq[i]` for `i ≥ 0`). -/
def listNth {α : Type} : List α → Nat → Option α
  | [], _ => none
  | a :: _, 0 => some a
  | _ :: t, n + 1 => listNth t n

/-- Python `data[i]` for a non-negative integer index. -/
def pyIndexNat (j : Json) (i : Nat) : Except String Json :=
  match j with
  | .arr items =>
    match listNth items i with
    | some v => .ok v
    | none => .error "list index out of range"
  | .str s =>
    match listNth s.data i with
    | some c => .ok (.str ⟨[c]⟩)
    | none => .error "string index out of range"
  | .obj _ => .error "KeyError: 0"
  | _ => .error "object is not subscriptable"

/-- Python truthiness of `st.secrets.get("gemini", {}).get("api_key", None)`,
modelled as `Option String`: `None` and `""` are falsy. -/
def pyTruthy : Option String → Bool
  | none => false
  | some s => s != ""

/-! ### `call_gemini_api` -/

/-- Outcome of `requests.post(...)`: an exception (network error, timeout —
message = `str(e)`), or a response with its status code and the result of
`response.json()` (`.error` = `json.JSONDecodeError` message). -/
inductive PostOutcome where
  | exn : String → PostOutcome
  | response : Nat → Except String Json → PostOutcome

/-- `Response.raise_for_status()`: raises `requests.HTTPError` exactly for
4xx/5xx status codes; `some` is the exception's message (`requests` also
interpolates the server's reason phrase, which the model omits). -/
def raiseForStatusMsg (status : Nat) (url : String) : Option String :=
  if 400 ≤ status ∧ status < 500 then
    some (Nat.repr status ++ " Client Error for url: " ++ url)
  else if 500 ≤ status ∧ status < 600 then
    some (Nat.repr status ++ " Server Error for url: " ++ url)
  else none

/-- The Gemini endpoint URL with the API key as query parameter. -/
def geminiUrl (key : String) : String :=
  "https://generativelanguage.googleapis.com/v1beta/models/gemini-2.0-flash:generateContent?key=" ++ key

/-- `combined_input`: the prompt string built in `call_gemini_api`. -/
def geminiPrompt (text : String) (images : List String) : String :=
  "Web Page Content:\n" ++ text ++ "\n\nImages:\n" ++
  (if images.isEmpty then "None" else joinWith ", " images) ++
  "\n\nPlease provide a brief summary of the above content."

/-- The JSON payload `{"contents": [{"parts": [{"text": combined_input}]}]}`. -/
def geminiPayload (combinedInput : String) : Json :=
  .obj [("contents", .arr [.obj [("parts", .arr [.obj [("text", .str combinedInput)]])]])]

/-- The Python function returns `data[...]["text"]` whatever it is; the model
returns strings, so a (never-claim-relevant) non-string value is rendered by
a placeholder. -/
def jsonReturnValue : Json → String
  | .str s => s
  | _ => "non-string JSON value"

/-- `data["candidates"][0]["content"]["parts"][0]["text"]` from the first
candidate onward. -/
def firstCandidateText (c0 : Json) : Except String String := do
  let content ← pyIndexStr c0 "content"
  let parts ← pyIndexStr content "parts"
  let p0 ← pyIndexNat parts 0
  let t ← pyIndexStr p0 "text"
  pure (jsonReturnValue t)

/-- The body of the `try:` block of `call_gemini_api` after the POST:
`raise_for_status`, `response.json()`, then
`if "candidates" in data and data["candidates"]: return data["candidates"][0]...`
else the no-summary message.  `.error` carries the raised exception's
message. -/
def geminiTry (outcome : PostOutcome) (url : String) : Except String String :=
  match outcome with
  | .exn m => .error m
  | .response status body =>
    match raiseForStatusMsg status url with
    | some m => .error m
    | none =>
      match body with
      | .error m => .error m
      | .ok data => do
        let memb ← pyIn "candidates" data
        if memb then do
          let cands ← pyIndexStr data "candidates"
          if jsonTruthy cands then do
            let c0 ← pyIndexNat cands 0
            firstCandidateText c0
          else pure "No summary returned from Gemini API."
        else pure "No summary returned from Gemini API."

/-- `call_gemini_api(text, images)` with the module-level `gemini_api_key`
and the network passed explicitly.  The second component is the list of
POST requests issued (url, JSON body), so that "no network call" is the
trace being `[]`. -/
def call_gemini_api (apiKey : Option String) (text : String) (images : List String)
    (post : String → Json → PostOutcome) : String × List (String × Json) :=
  if !pyTruthy apiKey then
    ("Gemini API key not found. Please check your config.toml file.", [])
  else
    let url := geminiUrl (apiKey.getD "")
    let payload := geminiPayload (geminiPrompt text images)
    (match geminiTry (post url payload) url with
     | .ok s => s
     | .error m => "Error calling Gemini API: " ++ m,
     [(url, payload)])

/-! ### HTML DOM and `extract_content_from_url`

`BeautifulSoup(response.content, "html.parser")` yields a tree of elements
and text nodes; the model takes that tree as part of the fetch outcome (the
HTML parser itself is the library's concern).  `Html`/`HtmlList` are mutual
so that every traversal is structural and kernel-reducible. -/

mutual
inductive Html where
  | text : String → Html
  | elem : String → List (String × String) → HtmlList → Html
inductive HtmlList where
  | nil : HtmlList
  | cons : Html → HtmlList → HtmlList
end

/-- Append on `HtmlList`. -/
def happend : HtmlList → HtmlList → HtmlList
  | .nil, ys => ys
  | .cons x xs, ys => .cons x (happend xs ys)

mutual
/-- `for tag in soup(["script", "style"]): tag.decompose()` — drop every
`script`/`style` element together with its subtree. -/
def scrub1 : Html → HtmlList
  | .text s => .cons (.text s) .nil
  | .elem name attrs children =>
    if name = "script" ∨ name = "style" then .nil
    else .cons (.elem name attrs (scrubL children)) .nil
def scrubL : HtmlList → HtmlList
  | .nil => .nil
  | .cons h t => happend (scrub1 h) (scrubL t)
end

mutual
/-- All text nodes of a tree, in document order (`soup.strings`). -/
def strings1 : Html → List String
  | .text s => [s]
  | .elem _ _ cs => stringsL cs
def stringsL : HtmlList → List String
  | .nil => []
  | .cons h t => strings1 h ++ stringsL t
end

mutual
/-- Text nodes that do not lie inside a `script` or `style` element, in
document order (a direct description of scrub-then-collect). -/
def plainTexts1 : Html → List String
  | .text s => [s]
  | .elem name _ cs =>
    if name = "script" ∨ name = "style" then [] else plainTextsL cs
def plainTextsL : HtmlList → List String
  | .nil => []
  | .cons h t => plainTexts1 h ++ plainTextsL t
end

mutual
/-- `soup.find_all("img")`: the attribute lists of all `img` elements, in
document order (an element before its descendants). -/
def findImgs1 : Html → List (List (String × String))
  | .text _ => []
  | .elem name attrs cs =>
    (if name = "img" then [attrs] else []) ++ findImgsL cs
def findImgsL : HtmlList → List (List (String × String))
  | .nil => []
  | .cons h t => findImgs1 h ++ findImgsL t
end

/-- `soup.stripped_strings`: each string stripped, empty results skipped. -/
def strippedStrings (l : List String) : List String :=
  l.filterMap fun s => let t := pyStrip s; if t = "" then none else some t

/-- The body of the `img` loop: `src = img.get("src"); if src: append
resolve(src)`.  `resolve` is `urljoin(url, ·)` in the extractor and `id`
in the specification-side `imgSrcs`. -/
def srcToImage (resolve : String → String) (attrs : List (String × String)) : Option String :=
  match attrs.lookup "src" with
  | some src => if src != "" then some (resolve src) else none
  | none => none

/-- The non-empty `src` attributes of the `img` elements of a tree, in
document order. -/
def imgSrcs (l : HtmlList) : List String :=
  (findImgsL l).filterMap (srcToImage id)

/-- Outcome of `requests.get(url, timeout=10)`: an exception (connection
error, timeout, invalid scheme — message = `str(e)`), or a response with
its final status code, its final URL after redirects (`response.url`,
which the program never reads), and the DOM parsed from its body. -/
inductive FetchOutcome where
  | exn : String → FetchOutcome
  | response : Nat → String → Html → FetchOutcome

/-- `extract_content_from_url(url)` with the network passed explicitly. -/
def extract_content_from_url (url : String) (fetch : String → FetchOutcome) :
    String × List String :=
  match fetch url with
  | .exn m => ("Error: " ++ m, [])
  | .response status finalUrl doc =>
    match raiseForStatusMsg status finalUrl with
    | some m => ("Error: " ++ m, [])
    | none =>
      let soup := scrubL (.cons doc .nil)
      let text := joinWith " " (strippedStrings (stringsL soup))
      let images := (findImgsL soup).filterMap (srcToImage (urljoin url))
      (text, images)

/-- A `sub`string occurs contiguously in `t`. -/
def containsSub (t sub : String) : Prop :=
  ∃ a b, t = a ++ sub ++ b

/-! ### Sanity instances of the embedding -/

example : urljoin "https://x.com/b/c" "../a.png" = "https://x.com/a.png" := by decide
example : urljoin "https://a.example/dir/page" "x.png" = "https://a.example/dir/x.png" := by decide
example : urljoin "https://b.example/" "x.png" = "https://b.example/x.png" := by decide
example : urljoin "https://x.com/b/c" "https://other.com/z" = "https://other.com/z" := by decide
example : urljoin "https://x.com/b/c" "/p/../q.png" = "https://x.com/q.png" := by decide
example : urljoin "https://x.com" "a" = "https://x.com/a" := by decide
example : urljoin "https://x.com/" "../a" = "https://x.com/a" := by decide
example : urljoin "https://x.com/b/c" "" = "https://x.com/b/c" := by decide
example : urljoin "https://x.com/b/c/" "../a.png" = "https://x.com/b/a.png" := by decide

example :
    call_gemini_api none "t" [] (fun _ _ => .exn "boom")
      = ("Gemini API key not found. Please check your config.toml file.", []) := rfl

example :
    (call_gemini_api (some "K") "t" [] (fun _ _ => .exn "boom")).1
      = "Error calling Gemini API: boom" := rfl

example :
    (call_gemini_api (some "K") "t" []
      (fun _ _ => .response 200 (.ok (.obj [("candidates", .arr
        [.obj [("content", .obj [("parts", .arr [.obj [("text", .str "S")]])])]])])))).1
      = "S" := rfl

example :
    (call_gemini_api (some "K") "t" []
      (fun _ _ => .response 200 (.ok (.obj [("candidates", .arr [])])))).1
      = "No summary returned from Gemini API." := rfl

example :
    (call_gemini_api (some "K") "t" []
      (fun _ _ => .response 404 (.ok (.obj [])))).1
      = "Error calling Gemini API: 404 Client Error for url: " ++ geminiUrl "K" := by
  decide

example :
    extract_content_from_url "https://x.com/" (fun _ => .exn "connection refused")
      = ("Error: connection refused", []) := rfl

example :
    extract_content_from_url "https://a.example/dir/page"
      (fun _ => .response 200 "https://a.example/dir/page"
        (.elem "html" [] (.cons (.elem "body" []
          (.cons (.text "  hello ") (.cons
            (.elem "script" [] (.cons (.text "var x = 1;") .nil)) (.cons
            (.elem "img" [("src", "x.png")] .nil) (.cons
            (.elem "img" [] .nil) (.cons
            (.elem "img" [("src", "")] .nil) (.cons
            (.text "world") .nil))))))) .nil)))
      = ("hello world", ["https://a.example/dir/x.png"]) := by decide

/-! ### Supporting lemmas -/

/-- With a truthy key, `call_gemini_api` performs exactly one POST and
converts its outcome through the `try` body. -/
theorem call_gemini_api_some (k : String) (hk : k ≠ "") (text : String)
    (images : List String) (post : String → Json → PostOutcome) :
    call_gemini_api (some k) text images post
      = (match geminiTry (post (geminiUrl k) (geminiPayload (geminiPrompt text images)))
            (geminiUrl k) with
         | .ok s => s
         | .error m => "Error calling Gemini API: " ++ m,
         [(geminiUrl k, geminiPayload (geminiPrompt text images))]) := by
  have ht : pyTruthy (some k) = true := by simp [pyTruthy, hk]
  simp only [call_gemini_api, ht, Bool.not_true, Bool.false_eq_true, if_false,
    Option.getD_some]

/-- `geminiTry` on an OK-status object response whose `candidates` is a
non-empty array follows the first-candidate path. -/
theorem geminiTry_first_candidate (url : String) (status : Nat)
    (kvs : List (String × Json)) (c0 : Json) (cs : List Json)
    (hs : raiseForStatusMsg status url = none)
    (hc : kvs.lookup "candidates" = some (Json.arr (c0 :: cs))) :
    geminiTry (.response status (.ok (.obj kvs))) url = firstCandidateText c0 := by
  simp only [geminiTry, hs, pyIn, pyIndexStr]
  rw [hc]
  rfl

/-- `geminiTry` on an OK-status object response with `candidates` absent or
an empty array yields the no-summary message. -/
theorem geminiTry_no_candidates (url : String) (status : Nat)
    (kvs : List (String × Json))
    (hs : raiseForStatusMsg status url = none)
    (hc : kvs.lookup "candidates" = none
        ∨ kvs.lookup "candidates" = some (Json.arr [])) :
    geminiTry (.response status (.ok (.obj kvs))) url
      = .ok "No summary returned from Gemini API." := by
  simp only [geminiTry, hs, pyIn, pyIndexStr]
  rcases hc with hc | hc <;> rw [hc] <;> rfl

theorem str_data_append (a b : String) : (a ++ b).data = a.data ++ b.data := by
  cases a; cases b; rfl

theorem str_eq_of_data {a b : String} (h : a.data = b.data) : a = b := by
  cases a; cases b; exact congrArg String.mk h

theorem str_append_assoc (a b c : String) : a ++ b ++ c = a ++ (b ++ c) := by
  apply str_eq_of_data
  simp [str_data_append, List.append_assoc]

theorem stringsL_happend : (a b : HtmlList) → stringsL (happend a b) = stringsL a ++ stringsL b
  | .nil, _ => rfl
  | .cons x xs, b => by
    show strings1 x ++ stringsL (happend xs b) = strings1 x ++ stringsL xs ++ stringsL b
    rw [stringsL_happend xs b, List.append_assoc]

mutual
theorem strings_scrub1 : (h : Html) → stringsL (scrub1 h) = plainTexts1 h
  | .text s => rfl
  | .elem name attrs cs => by
    by_cases hn : name = "script" ∨ name = "style"
    · simp [scrub1, plainTexts1, hn, stringsL]
    · simp [scrub1, plainTexts1, hn, stringsL, strings1, strings_scrubL cs]
theorem strings_scrubL : (l : HtmlList) → stringsL (scrubL l) = plainTextsL l
  | .nil => rfl
  | .cons h t => by
    show stringsL (happend (scrub1 h) (scrubL t)) = plainTexts1 h ++ plainTextsL t
    rw [stringsL_happend, strings_scrub1 h, strings_scrubL t]
end

theorem findImgsL_happend :
    (a b : HtmlList) → findImgsL (happend a b) = findImgsL a ++ findImgsL b
  | .nil, _ => rfl
  | .cons x xs, b => by
    show findImgs1 x ++ findImgsL (happend xs b) = findImgs1 x ++ findImgsL xs ++ findImgsL b
    rw [findImgsL_happend xs b, List.append_assoc]

/-- Stripping-then-skipping equals mapping `strip` then filtering the
non-empty results. -/
theorem strippedStrings_eq (l : List String) :
    strippedStrings l = (l.map pyStrip).filter (fun t => t != "") := by
  induction l with
  | nil => rfl
  | cons s t ih =>
    simp only [strippedStrings] at ih ⊢
    by_cases h : pyStrip s = ""
    · simp [List.filterMap_cons, List.filter_cons, h, ih]
    · simp [List.filterMap_cons, List.filter_cons, h, ih]

/-- If every text node strips to the empty string nothing survives. -/
theorem strippedStrings_nil {l : List String} (h : ∀ s ∈ l, pyStrip s = "") :
    strippedStrings l = [] := by
  induction l with
  | nil => rfl
  | cons s t ih =>
    have hs : pyStrip s = "" := h s (by simp)
    simp only [strippedStrings, List.filterMap_cons, hs]
    exact ih fun x hx => h x (by simp [hx])

/-- Resolving inside the loop equals collecting the raw `src` values and
mapping the resolver over them. -/
theorem srcToImage_map (f : String → String) (attrs : List (String × String)) :
    srcToImage f attrs = (srcToImage id attrs).map f := by
  unfold srcToImage
  cases attrs.lookup "src" with
  | none => rfl
  | some src =>
    by_cases h : src = ""
    · simp [h]
    · simp [h]

theorem filterMap_srcToImage (f : String → String) (L : List (List (String × String))) :
    L.filterMap (srcToImage f) = (L.filterMap (srcToImage id)).map f := by
  rw [List.map_filterMap]
  exact List.filterMap_congr fun attrs _ => srcToImage_map f attrs

/-- What `extract_content_from_url` returns on a successful fetch, stated
through the direct descriptions `plainTextsL` and `imgSrcs`. -/
theorem extract_success (url : String) (fetch : String → FetchOutcome)
    (status : Nat) (finalUrl : String) (doc : Html)
    (hf : fetch url = .response status finalUrl doc)
    (hs : raiseForStatusMsg status finalUrl = none) :
    extract_content_from_url url fetch
      = (joinWith " " (strippedStrings (plainTextsL (.cons doc .nil))),
         (imgSrcs (scrubL (.cons doc .nil))).map (urljoin url)) := by
  unfold extract_content_from_url
  rw [hf]
  simp only [hs]
  rw [strings_scrubL]
  unfold imgSrcs
  rw [← filterMap_srcToImage]

/-! ### Claims -/

/-- C1, counterexample: the code resolves `img src` against the URL passed
to `extract_content_from_url`, not against `response.url`.  When the final
URL after redirects (`https://b.example/`) differs from the requested URL
(`https://a.example/dir/page`), the image list is the request-URL
resolution, not the final-URL resolution the claim predicts. -/
theorem c1_counterexample :
    (extract_content_from_url "https://a.example/dir/page"
      (fun _ => FetchOutcome.response 200 "https://b.example/"
        (.elem "html" [] (.cons (.elem "img" [("src", "x.png")] .nil) .nil)))).2
      = ["https://a.example/dir/x.png"]
    ∧ (imgSrcs (scrubL (.cons
          (Html.elem "html" [] (.cons (.elem "img" [("src", "x.png")] .nil) .nil))
          .nil))).map (urljoin "https://b.example/")
      = ["https://b.example/x.png"]
    ∧ ["https://a.example/dir/x.png"] ≠ ["https://b.example/x.png"] := by
  refine ⟨by decide, by decide, by decide⟩

/-- C1, amended: for every `img` element with a non-empty `src` attribute
encountered during extraction, the resolved absolute URL appended to the
image list is `urljoin` of the *requested* URL (the function's argument,
not the response's final URL) and the `src` value, in document order. -/
theorem c1_images_resolved_against_request_url (url : String)
    (fetch : String → FetchOutcome) (status : Nat) (finalUrl : String) (doc : Html)
    (hf : fetch url = .response status finalUrl doc)
    (hs : raiseForStatusMsg status finalUrl = none) :
    (extract_content_from_url url fetch).2
      = (imgSrcs (scrubL (.cons doc .nil))).map (urljoin url) := by
  rw [extract_success url fetch status finalUrl doc hf hs]

/-- C1, witness for the amended theorem at a concrete redirected fetch. -/
theorem c1_witness :
    (extract_content_from_url "https://a.example/dir/page"
      (fun _ => FetchOutcome.response 200 "https://b.example/"
        (.elem "img" [("src", "x.png")] .nil))).2
      = (imgSrcs (scrubL (.cons (Html.elem "img" [("src", "x.png")] .nil) .nil))).map
          (urljoin "https://a.example/dir/page") :=
  c1_images_resolved_against_request_url "https://a.example/dir/page" _ 200
    "https://b.example/" _ rfl rfl

/-- C2, counterexample: `raise_for_status` raises only for 4xx/5xx, so a
non-2xx status such as 302 (delivered when a redirect response carries no
`Location`, or a 304) is *not* converted into an `"Error: "` result: the
body is parsed and returned as ordinary content. -/
theorem c2_counterexample :
    extract_content_from_url "https://a.example/"
      (fun _ => FetchOutcome.response 302 "https://a.example/" (.text "hello"))
      = ("hello", [])
    ∧ ¬ (200 ≤ 302 ∧ 302 < 300)
    ∧ ("Error: ".data.isPrefixOf "hello".data) = false := by
  refine ⟨by decide, by decide, by decide⟩

/-- C2, amended: any fetch exception (network error, timeout, invalid
scheme), and any 4xx or 5xx status (which `raise_for_status` turns into an
exception), is caught and converted into a result whose text is
`"Error: "` followed by the exception's message, with an empty image
list. -/
theorem c2_failure_policy (url : String) (fetch : String → FetchOutcome) :
    (∀ m, fetch url = .exn m →
        extract_content_from_url url fetch = ("Error: " ++ m, []))
    ∧ (∀ status finalUrl doc, fetch url = .response status finalUrl doc →
        400 ≤ status → status < 600 →
        ∃ m, extract_content_from_url url fetch = ("Error: " ++ m, [])) := by
  constructor
  · intro m hm
    unfold extract_content_from_url
    rw [hm]
  · intro status finalUrl doc hm h4 h6
    have hsome : ∃ m, raiseForStatusMsg status finalUrl = some m := by
      unfold raiseForStatusMsg
      by_cases h5 : status < 500
      · exact ⟨Nat.repr status ++ " Client Error for url: " ++ finalUrl, if_pos ⟨h4, h5⟩⟩
      · refine ⟨Nat.repr status ++ " Server Error for url: " ++ finalUrl, ?_⟩
        rw [if_neg (fun hc => h5 hc.2), if_pos ⟨by omega, h6⟩]
    obtain ⟨m, hm2⟩ := hsome
    refine ⟨m, ?_⟩
    unfold extract_content_from_url
    rw [hm]
    simp only [hm2]

/-- C2, witness: a concrete connection error and a concrete 404. -/
theorem c2_witness :
    extract_content_from_url "https://bad.example/" (fun _ => .exn "connection refused")
      = ("Error: " ++ "connection refused", [])
    ∧ ∃ m, extract_content_from_url "https://a.example/"
        (fun _ => FetchOutcome.response 404 "https://a.example/" (.text "nope"))
        = ("Error: " ++ m, []) :=
  ⟨(c2_failure_policy "https://bad.example/" _).1 "connection refused" rfl,
   (c2_failure_policy "https://a.example/" _).2 404 "https://a.example/" _ rfl
     (by decide) (by decide)⟩

/-- C3: with no API credential configured (`st.secrets` lookup yields
`None`), `call_gemini_api` returns exactly the key-not-found message for
every text, image list and network behaviour, and issues no HTTP request
(the request trace is empty). -/
theorem c3_no_key_returns_message_and_no_call (text : String) (images : List String)
    (post : String → Json → PostOutcome) :
    call_gemini_api none text images post
      = ("Gemini API key not found. Please check your config.toml file.", []) := rfl

/-- C9: the extractor's URL resolution (`requests.compat.urljoin`) maps the
relative `src` `"../a.png"` on the page `"https://x.com/b/c"` to exactly
`"https://x.com/a.png"`. -/
theorem c9_urljoin_dotdot :
    urljoin "https://x.com/b/c" "../a.png" = "https://x.com/a.png" := by decide

/-- C10: any falsy credential — `None` and the empty string alike — makes
`call_gemini_api` return the key-not-found message with an empty request
trace, and the empty-string credential is observably identical to the
missing one. -/
theorem c10_falsy_key (key : Option String) (text : String) (images : List String)
    (post : String → Json → PostOutcome)
    (h : key = none ∨ key = some "") :
    call_gemini_api key text images post
      = ("Gemini API key not found. Please check your config.toml file.", [])
    ∧ call_gemini_api (some "") text images post
      = call_gemini_api none text images post := by
  rcases h with h | h
  · subst h; exact ⟨rfl, rfl⟩
  · subst h; exact ⟨rfl, rfl⟩

/-- C10, witness at the empty-string credential. -/
theorem c10_witness :
    call_gemini_api (some "") "page text" ["https://x.com/i.png"]
        (fun _ _ => .exn "net down")
      = ("Gemini API key not found. Please check your config.toml file.", [])
    ∧ call_gemini_api (some "") "page text" ["https://x.com/i.png"]
        (fun _ _ => .exn "net down")
      = call_gemini_api none "page text" ["https://x.com/i.png"]
        (fun _ _ => .exn "net down") :=
  c10_falsy_key (some "") "page text" ["https://x.com/i.png"]
    (fun _ _ => .exn "net down") (Or.inr rfl)

/-- C4: on an HTTP-success response from the summarization endpoint, a
present non-empty `candidates` array makes `call_gemini_api` return the
first candidate's generated text (`candidates[0].content.parts[0].text`),
and an absent key or empty array yields exactly
`"No summary returned from Gemini API."`. -/
theorem c4_candidates_handling (k text : String) (images : List String)
    (post : String → Json → PostOutcome) (hk : k ≠ "")
    (status : Nat) (hs : raiseForStatusMsg status (geminiUrl k) = none)
    (kvs : List (String × Json))
    (hpost : post (geminiUrl k) (geminiPayload (geminiPrompt text images))
        = .response status (.ok (.obj kvs))) :
    (∀ c0 cs t, kvs.lookup "candidates" = some (Json.arr (c0 :: cs)) →
        firstCandidateText c0 = .ok t →
        (call_gemini_api (some k) text images post).1 = t)
    ∧ (kvs.lookup "candidates" = none
        ∨ kvs.lookup "candidates" = some (Json.arr []) →
        (call_gemini_api (some k) text images post).1
          = "No summary returned from Gemini API.") := by
  rw [call_gemini_api_some k hk text images post, hpost]
  constructor
  · intro c0 cs t hc hft
    rw [geminiTry_first_candidate (geminiUrl k) status kvs c0 cs hs hc, hft]
  · intro hc
    rw [geminiTry_no_candidates (geminiUrl k) status kvs hs hc]

/-- C4, witness: a well-formed single candidate returns its text, and an
empty `candidates` array returns the no-summary message. -/
theorem c4_witness :
    (call_gemini_api (some "K") "T" []
      (fun _ _ => .response 200 (.ok (.obj [("candidates", .arr
        [.obj [("content", .obj [("parts", .arr [.obj [("text", .str "S")]])])]])])))).1
      = "S"
    ∧ (call_gemini_api (some "K") "T" []
      (fun _ _ => .response 200 (.ok (.obj [("candidates", .arr [])])))).1
      = "No summary returned from Gemini API." :=
  ⟨(c4_candidates_handling "K" "T" [] _ (by decide) 200 rfl
      [("candidates", Json.arr
        [.obj [("content", .obj [("parts", .arr [.obj [("text", .str "S")]])])]])] rfl).1
      (Json.obj [("content", .obj [("parts", .arr [.obj [("text", .str "S")]])])]) [] "S"
      rfl rfl,
   (c4_candidates_handling "K" "T" [] _ (by decide) 200 rfl
      [("candidates", Json.arr [])] rfl).2 (Or.inr rfl)⟩

/-- C5: any exception raised inside the `try:` of `call_gemini_api` — a
network error or timeout from the POST, malformed JSON from
`response.json()`, or an unexpected response shape while drilling into the
first candidate — is caught and converted to `"Error calling Gemini API: "`
followed by the exception's message. -/
theorem c5_exceptions_to_error_string (k text : String) (images : List String)
    (post : String → Json → PostOutcome) (hk : k ≠ "") :
    (∀ m, post (geminiUrl k) (geminiPayload (geminiPrompt text images)) = .exn m →
        (call_gemini_api (some k) text images post).1
          = "Error calling Gemini API: " ++ m)
    ∧ (∀ status m,
        post (geminiUrl k) (geminiPayload (geminiPrompt text images))
          = .response status (.error m) →
        raiseForStatusMsg status (geminiUrl k) = none →
        (call_gemini_api (some k) text images post).1
          = "Error calling Gemini API: " ++ m)
    ∧ (∀ status kvs c0 cs m,
        post (geminiUrl k) (geminiPayload (geminiPrompt text images))
          = .response status (.ok (.obj kvs)) →
        raiseForStatusMsg status (geminiUrl k) = none →
        kvs.lookup "candidates" = some (Json.arr (c0 :: cs)) →
        firstCandidateText c0 = .error m →
        (call_gemini_api (some k) text images post).1
          = "Error calling Gemini API: " ++ m) := by
  refine ⟨?_, ?_, ?_⟩
  · intro m hp
    rw [call_gemini_api_some k hk text images post, hp]
    rfl
  · intro status m hp hs
    rw [call_gemini_api_some k hk text images post, hp]
    simp only [geminiTry, hs]
  · intro status kvs c0 cs m hp hs hc hft
    rw [call_gemini_api_some k hk text images post, hp,
      geminiTry_first_candidate (geminiUrl k) status kvs c0 cs hs hc, hft]

/-- C5, witness: a concrete network failure, a concrete JSON decode
failure, and a concrete malformed first candidate. -/
theorem c5_witness :
    (call_gemini_api (some "K") "T" [] (fun _ _ => .exn "timed out")).1
      = "Error calling Gemini API: " ++ "timed out"
    ∧ (call_gemini_api (some "K") "T" []
        (fun _ _ => .response 200 (.error "Expecting value: line 1 column 1"))).1
      = "Error calling Gemini API: " ++ "Expecting value: line 1 column 1"
    ∧ (call_gemini_api (some "K") "T" []
        (fun _ _ => .response 200 (.ok (.obj [("candidates", .arr [.obj []])])))).1
      = "Error calling Gemini API: " ++ ("KeyError: " ++ "content") :=
  ⟨(c5_exceptions_to_error_string "K" "T" [] _ (by decide)).1 "timed out" rfl,
   (c5_exceptions_to_error_string "K" "T" [] _ (by decide)).2.1 200
     "Expecting value: line 1 column 1" rfl rfl,
   (c5_exceptions_to_error_string "K" "T" [] _ (by decide)).2.2 200
     [("candidates", Json.arr [.obj []])] (Json.obj []) [] ("KeyError: " ++ "content")
     rfl rfl rfl rfl⟩

/-- C6: on a successful fetch the extracted text is the single-space join
of the whitespace-stripped, non-empty text nodes that lie outside `script`
and `style` elements, in document order; in particular, when every text
node outside `script`/`style` is whitespace-only (e.g. a page whose only
content sits inside `<script>` tags), the extracted text is empty. -/
theorem c6_text_extraction (url : String) (fetch : String → FetchOutcome)
    (status : Nat) (finalUrl : String) (doc : Html)
    (hf : fetch url = .response status finalUrl doc)
    (hs : raiseForStatusMsg status finalUrl = none) :
    (extract_content_from_url url fetch).1
      = joinWith " "
          (((plainTextsL (.cons doc .nil)).map pyStrip).filter (fun t => t != ""))
    ∧ ((∀ s ∈ plainTextsL (.cons doc .nil), pyStrip s = "") →
        (extract_content_from_url url fetch).1 = "") := by
  have h := extract_success url fetch status finalUrl doc hf hs
  constructor
  · rw [h, ← strippedStrings_eq]
  · intro hws
    rw [h]
    show joinWith " " (strippedStrings (plainTextsL (.cons doc .nil))) = ""
    rw [strippedStrings_nil hws]
    rfl

/-- C6, witness: a page whose only non-whitespace content is inside a
`script` element extracts to the empty string. -/
theorem c6_witness :
    (extract_content_from_url "https://x.com/"
      (fun _ => FetchOutcome.response 200 "https://x.com/"
        (.elem "html" [] (.cons (.text "\n  ") (.cons
          (.elem "script" [] (.cons (.text "alert(1);") .nil)) .nil))))).1
      = joinWith " "
          (((plainTextsL (.cons (Html.elem "html" [] (.cons (.text "\n  ") (.cons
              (.elem "script" [] (.cons (.text "alert(1);") .nil)) .nil))) .nil)).map
            pyStrip).filter (fun t => t != ""))
    ∧ (extract_content_from_url "https://x.com/"
      (fun _ => FetchOutcome.response 200 "https://x.com/"
        (.elem "html" [] (.cons (.text "\n  ") (.cons
          (.elem "script" [] (.cons (.text "alert(1);") .nil)) .nil))))).1
      = "" :=
  have h := c6_text_extraction "https://x.com/"
    (fun _ => FetchOutcome.response 200 "https://x.com/"
      (.elem "html" [] (.cons (.text "\n  ") (.cons
        (.elem "script" [] (.cons (.text "alert(1);") .nil)) .nil))))
    200 "https://x.com/"
    (.elem "html" [] (.cons (.text "\n  ") (.cons
      (.elem "script" [] (.cons (.text "alert(1);") .nil)) .nil)))
    rfl rfl
  ⟨h.1, h.2 (by decide)⟩

/-- C7: the prompt built by `call_gemini_api` contains the literal
`"Images:\nNone"` when the image list is empty, contains the image URLs
joined with `", "` when it is non-empty, and always embeds the full
extracted text unmodified. -/
theorem c7_prompt_construction (text : String) (images : List String) :
    (images = [] → containsSub (geminiPrompt text images) ("Images:" ++ "\n" ++ "None"))
    ∧ (images ≠ [] → containsSub (geminiPrompt text images) (joinWith ", " images))
    ∧ containsSub (geminiPrompt text images) text := by
  refine ⟨?_, ?_, ?_⟩
  · intro h
    subst h
    refine ⟨"Web Page Content:\n" ++ text ++ "\n\n",
      "\n\nPlease provide a brief summary of the above content.", ?_⟩
    apply str_eq_of_data
    simp only [geminiPrompt, List.isEmpty_nil, if_true, str_data_append, List.append_assoc]
    congr 2
  · intro h
    refine ⟨"Web Page Content:\n" ++ text ++ "\n\nImages:\n",
      "\n\nPlease provide a brief summary of the above content.", ?_⟩
    apply str_eq_of_data
    have : images.isEmpty = false := by
      cases images with
      | nil => exact absurd rfl h
      | cons a t => rfl
    simp only [geminiPrompt, this, Bool.false_eq_true, if_false, str_data_append,
      List.append_assoc]
  · refine ⟨"Web Page Content:\n",
      "\n\nImages:\n" ++ (if images.isEmpty then "None" else joinWith ", " images) ++
        "\n\nPlease provide a brief summary of the above content.", ?_⟩
    apply str_eq_of_data
    simp only [geminiPrompt, str_data_append, List.append_assoc]

/-- C7, witness: both prompt shapes at concrete inputs. -/
theorem c7_witness :
    containsSub (geminiPrompt "some text" []) ("Images:" ++ "\n" ++ "None")
    ∧ containsSub (geminiPrompt "some text" ["https://x.com/a.png", "https://x.com/b.png"])
        (joinWith ", " ["https://x.com/a.png", "https://x.com/b.png"])
    ∧ containsSub (geminiPrompt "some text" []) "some text" :=
  ⟨(c7_prompt_construction "some text" []).1 rfl,
   (c7_prompt_construction "some text" ["https://x.com/a.png", "https://x.com/b.png"]).2.1
     (by decide),
   (c7_prompt_construction "some text" []).2.2⟩

/-- C8: on a successful fetch, the image list is exactly the document-order
list of non-empty `src` attributes of the (post-decompose) `img` elements,
each resolved against the requested URL — so `img` elements without a
`src` (or with an empty one) contribute nothing, duplicates are preserved,
and there is no cap on the count (the lengths agree exactly). -/
theorem c8_one_entry_per_img (url : String) (fetch : String → FetchOutcome)
    (status : Nat) (finalUrl : String) (doc : Html)
    (hf : fetch url = .response status finalUrl doc)
    (hs : raiseForStatusMsg status finalUrl = none) :
    (extract_content_from_url url fetch).2
      = (imgSrcs (scrubL (.cons doc .nil))).map (urljoin url)
    ∧ (extract_content_from_url url fetch).2.length
      = (imgSrcs (scrubL (.cons doc .nil))).length := by
  rw [extract_success url fetch status finalUrl doc hf hs]
  exact ⟨rfl, List.length_map _ _⟩

/-- C8, witness: duplicates kept, `src`-less and empty-`src` images
skipped. -/
theorem c8_witness :
    (extract_content_from_url "https://x.com/"
      (fun _ => FetchOutcome.response 200 "https://x.com/"
        (.elem "body" [] (.cons (.elem "img" [("src", "a.png")] .nil) (.cons
          (.elem "img" [] .nil) (.cons
          (.elem "img" [("src", "")] .nil) (.cons
          (.elem "img" [("src", "a.png")] .nil) .nil))))))).2
      = (imgSrcs (scrubL (.cons
          (Html.elem "body" [] (.cons (.elem "img" [("src", "a.png")] .nil) (.cons
            (.elem "img" [] .nil) (.cons
            (.elem "img" [("src", "")] .nil) (.cons
            (.elem "img" [("src", "a.png")] .nil) .nil))))) .nil))).map
          (urljoin "https://x.com/")
    ∧ (extract_content_from_url "https://x.com/"
      (fun _ => FetchOutcome.response 200 "https://x.com/"
        (.elem "body" [] (.cons (.elem "img" [("src", "a.png")] .nil) (.cons
          (.elem "img" [] .nil) (.cons
          (.elem "img" [("src", "")] .nil) (.cons
          (.elem "img" [("src", "a.png")] .nil) .nil))))))).2.length
      = (imgSrcs (scrubL (.cons
          (Html.elem "body" [] (.cons (.elem "img" [("src", "a.png")] .nil) (.cons
            (.elem "img" [] .nil) (.cons
            (.elem "img" [("src", "")] .nil) (.cons
            (.elem "img" [("src", "a.png")] .nil) .nil))))) .nil))).length :=
  c8_one_entry_per_img "https://x.com/" _ 200 "https://x.com/" _ rfl rfl
